import Mathlib

/-!
Verification of the MicroPythonBLEHID repository (hid_services.py, hid_keystores.py)
against its natural-language specification.

The definitions below are a shallow embedding of the Python source:
pure functions become Lean functions, the mutable object state of
HumanInterfaceDevice becomes an explicit HIDState record, BLE transport
calls become an emitted list of BLEAction values, and code that can raise
an exception returns Option.  Bytes are modelled as Nat values below 256,
byte strings as List Nat.
-/

/-! ### GATT status constants (hid_services.py lines 91-100) -/

def GATTS_NO_ERROR : Nat := 0x00
def GATTS_ERROR_INVALID_HANDLE : Nat := 0x01
def GATTS_ERROR_READ_NOT_PERMITTED : Nat := 0x02
def GATTS_ERROR_WRITE_NOT_PERMITTED : Nat := 0x03
def GATTS_ERROR_INSUFFICIENT_AUTHENTICATION : Nat := 0x05
def GATTS_ERROR_INSUFFICIENT_AUTHORIZATION : Nat := 0x08
def GATTS_ERROR_ATTR_NOT_FOUND : Nat := 0x0a
def GATTS_ERROR_INSUFFICIENT_ENCRYPTION : Nat := 0x0f

/-- IO capability constants (hid_services.py lines 81-85). -/
def IO_CAPABILITY_DISPLAY_ONLY : Nat := 0
def IO_CAPABILITY_DISPLAY_YESNO : Nat := 1
def IO_CAPABILITY_KEYBOARD_ONLY : Nat := 2
def IO_CAPABILITY_NO_INPUT_OUTPUT : Nat := 3
def IO_CAPABILITY_KEYBOARD_DISPLAY : Nat := 4

/-! ### Device state machine (class HumanInterfaceDevice) -/

/-- The four device states DEVICE_STOPPED/IDLE/ADVERTISING/CONNECTED
(hid_services.py lines 186-189). -/
inductive DeviceState where
  | stopped
  | idle
  | advertising
  | connected
deriving DecidableEq, Repr

/-- Transport commands issued by the engine to the BLE stack object. -/
inductive BLEAction where
  | gapAdvertise (interval : Nat)
  | gapDisconnect (h : Nat)
  | active (flag : Bool)
  | configure
  | gattsNotify (conn attr : Nat)
deriving DecidableEq, Repr

/-- The mutable fields of HumanInterfaceDevice that the claims are about
(hid_services.py __init__, lines 191-274).  The characteristics dict maps a
handle to a (description, value) pair; a Python dict is modelled as an
association list with insert-or-update semantics.  adv_advertising is the
Advertiser.advertising flag (line 167). -/
structure HIDState where
  device_state : DeviceState
  conn_handle : Option Nat
  io_capability : Nat
  bond : Bool
  le_secure : Bool
  encrypted : Bool
  authenticated : Bool
  bonded : Bool
  key_size : Nat
  characteristics : List (Nat × String × List Nat)
  adv_advertising : Bool
deriving DecidableEq, Repr

/-- A Python dict, modelled as an association list in insertion order:
dict .get(key). -/
def dictGet {α β : Type} [DecidableEq α] : List (α × β) → α → Option β
  | [], _ => none
  | (k0, v0) :: rest, k => if k0 = k then some v0 else dictGet rest k

/-- Python dict assignment: replace the value in place if the key is present,
append a new entry otherwise. -/
def dictSet {α β : Type} [DecidableEq α] : List (α × β) → α → β → List (α × β)
  | [], k, v => [(k, v)]
  | (k0, v0) :: rest, k, v =>
      if k0 = k then (k, v) :: rest else (k0, v0) :: dictSet rest k v

/-- dict .get on the characteristics map. -/
def lookupChar (l : List (Nat × String × List Nat)) (h : Nat) : Option (String × List Nat) :=
  dictGet l h

/-- dict assignment on the characteristics map. -/
def setChar (l : List (Nat × String × List Nat)) (h : Nat) (v : String × List Nat) :
    List (Nat × String × List Nat) :=
  dictSet l h v

/-- The initial field values set by HumanInterfaceDevice.__init__
(hid_services.py lines 191-274). -/
def initHIDState : HIDState :=
  { device_state := .stopped
    conn_handle := none
    io_capability := IO_CAPABILITY_NO_INPUT_OUTPUT
    bond := true
    le_secure := true
    encrypted := false
    authenticated := false
    bonded := false
    key_size := 0
    characteristics := []
    adv_advertising := false }

/-- ble_irq _IRQ_CENTRAL_CONNECT branch (lines 278-281): save the handle,
set state connected.  Unconditional: the previous state is not examined. -/
def central_connect (s : HIDState) (h : Nat) : HIDState :=
  { s with conn_handle := some h, device_state := .connected }

/-- ble_irq _IRQ_CENTRAL_DISCONNECT branch (lines 282-289): discard the
handle, set state idle, clear encrypted/authenticated/bonded.  The key_size
field is not touched.  Unconditional: the delivered handle is not compared
with the stored one and the previous state is not examined. -/
def central_disconnect (s : HIDState) (_h : Nat) : HIDState :=
  { s with conn_handle := none, device_state := .idle,
           encrypted := false, authenticated := false, bonded := false }

/-- ble_irq _IRQ_ENCRYPTION_UPDATE branch (lines 328-330): overwrite the four
security fields with the values delivered by the stack. -/
def encryption_update (s : HIDState) (enc auth bnd : Bool) (ks : Nat) : HIDState :=
  { s with encrypted := enc, authenticated := auth, bonded := bnd, key_size := ks }

/-- ble_irq _IRQ_GATTS_WRITE branch (lines 290-300).  value is the bytes the
client wrote, as returned by the transport gatts_read call.  Unknown handle:
state unchanged, ATTR_NOT_FOUND.  Known handle: the stored value is replaced
and NO_ERROR is returned.  No security field is consulted. -/
def gatts_write (s : HIDState) (_conn_handle attr_handle : Nat) (value : List Nat) :
    HIDState × Nat :=
  match lookupChar s.characteristics attr_handle with
  | none => (s, GATTS_ERROR_ATTR_NOT_FOUND)
  | some (descr, _) =>
      ({ s with characteristics := setChar s.characteristics attr_handle (descr, value) },
       GATTS_NO_ERROR)

/-- ble_irq _IRQ_GATTS_READ_REQUEST branch (lines 301-316): the ordered
security evaluation, returning a GATT status code. -/
def gatts_read_request (s : HIDState) (conn_handle attr_handle : Nat) : Nat :=
  if s.conn_handle ≠ some conn_handle then GATTS_ERROR_READ_NOT_PERMITTED
  else match lookupChar s.characteristics attr_handle with
    | none => GATTS_ERROR_INVALID_HANDLE
    | some _ =>
      if s.bond ∧ ¬ s.bonded then GATTS_ERROR_INSUFFICIENT_AUTHORIZATION
      else if IO_CAPABILITY_NO_INPUT_OUTPUT < s.io_capability ∧ ¬ s.authenticated then
        GATTS_ERROR_INSUFFICIENT_AUTHENTICATION
      else if s.le_secure ∧ (¬ s.encrypted ∨ s.key_size < 16) then
        GATTS_ERROR_INSUFFICIENT_ENCRYPTION
      else GATTS_NO_ERROR

/-- Advertiser.start_advertising (lines 171-174): issues gap_advertise(100000)
when the advertising flag is false.  The flag itself is never assigned. -/
def advertiser_start_advertising (advertising : Bool) : List BLEAction :=
  if advertising = false then [BLEAction.gapAdvertise 100000] else []

/-- Advertiser.stop_advertising (lines 177-180): issues gap_advertise(0)
only when the advertising flag is true.  The flag itself is never assigned;
Advertiser.__init__ (line 167) initializes it to False. -/
def advertiser_stop_advertising (advertising : Bool) : List BLEAction :=
  if advertising = true then [BLEAction.gapAdvertise 0] else []

/-- HumanInterfaceDevice.start (lines 389-406): from stopped, activate and
configure the transport and move to idle; otherwise do nothing. -/
def hid_start (s : HIDState) : HIDState × List BLEAction :=
  if s.device_state = .stopped then
    ({ s with device_state := .idle }, [BLEAction.active true, BLEAction.configure])
  else (s, [])

/-- HumanInterfaceDevice.start_advertising (lines 523-526): from any state
other than stopped and advertising, start the advertiser and set state
advertising.  In particular this runs from connected. -/
def hid_start_advertising (s : HIDState) : HIDState × List BLEAction :=
  if s.device_state ≠ .stopped ∧ s.device_state ≠ .advertising then
    ({ s with device_state := .advertising }, advertiser_start_advertising s.adv_advertising)
  else (s, [])

/-- HumanInterfaceDevice.stop_advertising (lines 529-533): when not stopped,
call the advertiser stop and, unless connected, set state idle. -/
def hid_stop_advertising (s : HIDState) : HIDState × List BLEAction :=
  if s.device_state ≠ .stopped then
    if s.device_state ≠ .connected then
      ({ s with device_state := .idle }, advertiser_stop_advertising s.adv_advertising)
    else (s, advertiser_stop_advertising s.adv_advertising)
  else (s, [])

/-- HumanInterfaceDevice.stop (lines 445-457): when not stopped, call the
advertiser stop if advertising, force-disconnect any active connection and
clear the handle, deactivate the transport, and set state stopped. -/
def hid_stop (s : HIDState) : HIDState × List BLEAction :=
  if s.device_state ≠ .stopped then
    let advActs := if s.device_state = .advertising then
        advertiser_stop_advertising s.adv_advertising else []
    let discActs := match s.conn_handle with
      | some h => [BLEAction.gapDisconnect h]
      | none => []
    ({ s with conn_handle := none, device_state := .stopped },
     advActs ++ discActs ++ [BLEAction.active false])
  else (s, [])

/-- Operations and transport events of the section 4.1 state machine. -/
inductive DevOp where
  | opStart
  | opStartAdvertising
  | opStopAdvertising
  | opStop
  | opConnect (h : Nat)
  | opDisconnect (h : Nat)
deriving DecidableEq, Repr

/-- One step of the device state machine: dispatch an operation or transport
event to the corresponding source method. -/
def hid_step (s : HIDState) : DevOp → HIDState
  | .opStart => (hid_start s).1
  | .opStartAdvertising => (hid_start_advertising s).1
  | .opStopAdvertising => (hid_stop_advertising s).1
  | .opStop => (hid_stop s).1
  | .opConnect h => central_connect s h
  | .opDisconnect h => central_disconnect s h

/-- The valid-transition table of spec section 4.1 (spec side, written from
the spec words): Start from Stopped, StartAdvertising from Idle, ConnectEvent
from any non-Stopped state, DisconnectEvent from Connected, StopAdvertising
from Advertising, Stop from any state. -/
def validOp (st : DeviceState) : DevOp → Bool
  | .opStart => st = .stopped
  | .opStartAdvertising => st = .idle
  | .opStopAdvertising => st = .advertising
  | .opStop => true
  | .opConnect _ => st ≠ .stopped
  | .opDisconnect _ => st = .connected

/-! ### Report codecs (classes Joystick and Mouse) -/

/-- struct.pack of one signed byte (format "b"): two-complement encoding of an
integer in [-128, 127] as one byte. -/
def sbyte (i : Int) : Nat := (i % 256).toNat

/-- The joystick report fields of Joystick.__init__ (lines 680-690). -/
structure JoyState where
  x : Int
  y : Int
  button1 : Nat
  button2 : Nat
  button3 : Nat
  button4 : Nat
  button5 : Nat
  button6 : Nat
  button7 : Nat
  button8 : Nat
deriving DecidableEq, Repr

/-- The joystick input report bytes, struct.pack("bbB", x, y, b) with
b = button1 + button2*2 + ... + button8*128 (lines 711-712 and 726-727). -/
def joystick_report (s : JoyState) : List Nat :=
  [sbyte s.x, sbyte s.y,
   s.button1 + s.button2 * 2 + s.button3 * 4 + s.button4 * 8 + s.button5 * 16 +
     s.button6 * 32 + s.button7 * 64 + s.button8 * 128]

/-- Joystick.set_axes (lines 733-745): clamp each input to [-127, 127] and
store. -/
def joystick_set_axes (s : JoyState) (x y : Int) : JoyState :=
  let x := if 127 < x then 127 else if x < -127 then -127 else x
  let y := if 127 < y then 127 else if y < -127 then -127 else y
  { s with x := x, y := y }

/-- The mouse report fields of Mouse.__init__ (lines 810-817). -/
structure MouseState where
  x : Int
  y : Int
  w : Int
  button1 : Nat
  button2 : Nat
  button3 : Nat
deriving DecidableEq, Repr

/-- The mouse input report bytes written by Mouse.save_service_characteristics
(lines 839-840): struct.pack("Bbbb", b, x, y, w) with
b = button1 + button2*2 + button3*4. -/
def mouse_report_initial (s : MouseState) : List Nat :=
  [s.button1 + s.button2 * 2 + s.button3 * 4, sbyte s.x, sbyte s.y, sbyte s.w]

/-- The mouse input report bytes sent by Mouse.notify_hid_report
(lines 853-854): struct.pack("Bbbb", b, x, y, w) with
b = button1 + button2*2 + button3 — the source adds button3 with weight 1,
not 4. -/
def mouse_report_notify (s : MouseState) : List Nat :=
  [s.button1 + s.button2 * 2 + s.button3, sbyte s.x, sbyte s.y, sbyte s.w]

/-- Mouse.set_axes (lines 860-872): clamp each input to [-127, 127] and
store. -/
def mouse_set_axes (s : MouseState) (x y : Int) : MouseState :=
  let x := if 127 < x then 127 else if x < -127 then -127 else x
  let y := if 127 < y then 127 else if y < -127 then -127 else y
  { s with x := x, y := y }

/-- Mouse.set_wheel (lines 875-881): clamp the input to [-127, 127] and
store. -/
def mouse_set_wheel (s : MouseState) (w : Int) : MouseState :=
  let w := if 127 < w then 127 else if w < -127 then -127 else w
  { s with w := w }


/-! ### Claims about the security policy and the state machine -/

/-- A helper: after a dict assignment, looking the key up returns the newly
assigned value. -/
theorem dictGet_dictSet {α β : Type} [DecidableEq α] :
    ∀ (l : List (α × β)) (k : α) (v : β), dictGet (dictSet l k v) k = some v := by
  intro l k v
  induction l with
  | nil => simp [dictSet, dictGet]
  | cons e rest ih =>
      obtain ⟨k0, v0⟩ := e
      by_cases hk : k0 = k
      · simp [dictSet, dictGet, hk]
      · simp [dictSet, dictGet, hk, ih]

/-- A concrete device state: connected to client 7, bonding required but not
bonded (the initial bond/bonded values), one registered characteristic. -/
def c1State : HIDState := { initHIDState with
  device_state := .connected
  conn_handle := some 7
  characteristics := [(10, "HID report", [0, 0, 0])] }

/-- Claim C1 counterexample: with bonding required (bond=true, the default)
and the client not bonded (bonded=false), a write request on a registered
handle of the active connection returns NO_ERROR, not
INSUFFICIENT_AUTHORIZATION, and the stored characteristic value changes
from [0,0,0] to [1,2,3]. -/
theorem c1_counterexample :
    c1State.bond = true ∧ c1State.bonded = false ∧
    (gatts_write c1State 7 10 [1, 2, 3]).2 = GATTS_NO_ERROR ∧
    GATTS_NO_ERROR ≠ GATTS_ERROR_INSUFFICIENT_AUTHORIZATION ∧
    lookupChar (gatts_write c1State 7 10 [1, 2, 3]).1.characteristics 10
      = some ("HID report", [1, 2, 3]) := by
  decide

/-- Claim C1 (amended): characteristic write requests receive no security
evaluation at all.  Whatever the bonding configuration and bonding state,
and whatever connection the write arrives on, a write to a registered handle
replaces the stored value and returns NO_ERROR; the ordered security
evaluation applies only to read requests. -/
theorem c1_write_bypasses_security (s : HIDState) (ch ah : Nat) (value : List Nat)
    (d : String) (old : List Nat)
    (hreg : lookupChar s.characteristics ah = some (d, old)) :
    (gatts_write s ch ah value).2 = GATTS_NO_ERROR ∧
    lookupChar (gatts_write s ch ah value).1.characteristics ah = some (d, value) := by
  constructor
  · simp only [gatts_write, hreg]
  · simp only [gatts_write, hreg]
    exact dictGet_dictSet _ _ _

/-- Claim C1 witness: the amended theorem applied at a concrete bonded=false
state. -/
theorem c1_write_bypasses_security_witness :
    (gatts_write c1State 7 10 [9, 9, 9]).2 = GATTS_NO_ERROR ∧
    lookupChar (gatts_write c1State 7 10 [9, 9, 9]).1.characteristics 10
      = some ("HID report", [9, 9, 9]) :=
  c1_write_bypasses_security c1State 7 10 [9, 9, 9] "HID report" [0, 0, 0] (by decide)

/-- A concrete device state for claim C2: connected, bonded, not
authenticated, io capability display-only, encrypted with a 16-byte key. -/
def c2State : HIDState := { initHIDState with
  device_state := .connected
  conn_handle := some 0
  io_capability := IO_CAPABILITY_DISPLAY_ONLY
  bonded := true
  encrypted := true
  key_size := 16
  characteristics := [(1, "HID information", [1, 1, 0, 0])] }

/-- Claim C2 counterexample: with io capability display-only, a bonded but
unauthenticated client issuing a read on the active connection is NOT denied
with INSUFFICIENT_AUTHENTICATION: the code fires the authentication check
only for io capability above NO_INPUT_OUTPUT = 3, so the request succeeds. -/
theorem c2_counterexample :
    c2State.io_capability = IO_CAPABILITY_DISPLAY_ONLY ∧
    c2State.authenticated = false ∧
    gatts_read_request c2State 0 1 = GATTS_NO_ERROR ∧
    GATTS_NO_ERROR ≠ GATTS_ERROR_INSUFFICIENT_AUTHENTICATION := by
  decide

/-- Claim C2 (amended): for a read request on the active connection with a
registered handle, bonding satisfied and the link not authenticated, the
request is denied with INSUFFICIENT_AUTHENTICATION exactly when the
configured io capability is numerically above NO_INPUT_OUTPUT, i.e. only for
keyboard+display; display-only, display+yes-no and keyboard-only do not
trigger the authentication denial. -/
theorem c2_auth_denial_only_above_no_io (s : HIDState) (ch ah : Nat)
    (hconn : s.conn_handle = some ch)
    (hreg : (lookupChar s.characteristics ah).isSome)
    (hbonded : s.bonded = true)
    (hauth : s.authenticated = false) :
    gatts_read_request s ch ah = GATTS_ERROR_INSUFFICIENT_AUTHENTICATION ↔
      IO_CAPABILITY_NO_INPUT_OUTPUT < s.io_capability := by
  obtain ⟨d, hd⟩ := Option.isSome_iff_exists.mp hreg
  simp only [gatts_read_request, hconn, hd, hbonded, hauth]
  by_cases hio : IO_CAPABILITY_NO_INPUT_OUTPUT < s.io_capability
  · simp [hio]
  · simp [hio]
    split <;> decide

/-- Claim C2 witness: the amended theorem applied at a concrete
keyboard+display state. -/
theorem c2_auth_denial_only_above_no_io_witness :
    gatts_read_request { c2State with io_capability := IO_CAPABILITY_KEYBOARD_DISPLAY } 0 1
      = GATTS_ERROR_INSUFFICIENT_AUTHENTICATION ↔
    IO_CAPABILITY_NO_INPUT_OUTPUT <
      ({ c2State with io_capability := IO_CAPABILITY_KEYBOARD_DISPLAY } : HIDState).io_capability :=
  c2_auth_denial_only_above_no_io _ 0 1 rfl (by decide) rfl rfl

/-- A concrete device state for claim C5: connected, bond=true, bonded=true,
le_secure=true, encrypted but with the initial key_size of 0. -/
def c5State : HIDState := { initHIDState with
  device_state := .connected
  conn_handle := some 0
  bonded := true
  encrypted := true
  characteristics := [(1, "HID information", [1, 1, 0, 0])] }

/-- Claim C5 counterexample: with bond=true, bonded=true, le_secure=true and
the link encrypted, but the negotiated key size 0 (its initial value), the
read request returns INSUFFICIENT_ENCRYPTION rather than Success, so the
three conditions named by the claim do not suffice. -/
theorem c5_counterexample :
    c5State.bonded = true ∧ c5State.le_secure = true ∧ c5State.encrypted = true ∧
    gatts_read_request c5State 0 1 = GATTS_ERROR_INSUFFICIENT_ENCRYPTION ∧
    GATTS_ERROR_INSUFFICIENT_ENCRYPTION ≠ GATTS_NO_ERROR := by
  decide

/-- Claim C5 (amended): for a read request on the active connection with a
registered handle, given bonded=true, le_secure=true and authentication as
required by the io capability: if the link is unencrypted the request
returns INSUFFICIENT_ENCRYPTION, and if it is encrypted with a negotiated
key size of at least 16 the request returns Success. -/
theorem c5_read_encryption_check (s : HIDState) (ch ah : Nat)
    (hconn : s.conn_handle = some ch)
    (hreg : (lookupChar s.characteristics ah).isSome)
    (hbonded : s.bonded = true)
    (hsec : s.le_secure = true)
    (hauth : IO_CAPABILITY_NO_INPUT_OUTPUT < s.io_capability → s.authenticated = true) :
    (s.encrypted = false →
        gatts_read_request s ch ah = GATTS_ERROR_INSUFFICIENT_ENCRYPTION) ∧
    (s.encrypted = true → 16 ≤ s.key_size →
        gatts_read_request s ch ah = GATTS_NO_ERROR) := by
  obtain ⟨d, hd⟩ := Option.isSome_iff_exists.mp hreg
  simp only [gatts_read_request, hconn, hd, hbonded, hsec]
  constructor
  · intro henc
    by_cases hio : IO_CAPABILITY_NO_INPUT_OUTPUT < s.io_capability
    · simp [hio, hauth hio, henc]
    · simp [hio, henc]
  · intro henc hks
    by_cases hio : IO_CAPABILITY_NO_INPUT_OUTPUT < s.io_capability
    · simp [hio, hauth hio, henc, Nat.not_lt.mpr hks]
    · simp [hio, henc, Nat.not_lt.mpr hks]

/-- Claim C5 witness: the amended theorem applied at a concrete state with
encryption and a 16-byte key. -/
theorem c5_read_encryption_check_witness :
    (({ c5State with key_size := 16 } : HIDState).encrypted = false →
        gatts_read_request { c5State with key_size := 16 } 0 1
          = GATTS_ERROR_INSUFFICIENT_ENCRYPTION) ∧
    (({ c5State with key_size := 16 } : HIDState).encrypted = true →
        16 ≤ ({ c5State with key_size := 16 } : HIDState).key_size →
        gatts_read_request { c5State with key_size := 16 } 0 1 = GATTS_NO_ERROR) :=
  c5_read_encryption_check _ 0 1 rfl (by decide) rfl rfl
    (fun h => absurd h (by decide))

/-- A concrete connected device state for claim C3. -/
def c3State : HIDState := { initHIDState with
  device_state := .connected
  conn_handle := some 7 }

/-- Claim C3 counterexample: StartAdvertising is not a valid operation from
Connected in the section 4.1 table, yet applying it to a connected device
changes the state to Advertising — the device transitions directly from
Connected to Advertising. -/
theorem c3_counterexample :
    validOp c3State.device_state DevOp.opStartAdvertising = false ∧
    (hid_step c3State DevOp.opStartAdvertising).device_state = DeviceState.advertising ∧
    DeviceState.advertising ≠ c3State.device_state := by
  decide

/-- Claim C3 (amended): an operation that is invalid in the section 4.1
table leaves the device state unchanged, except that (a) Stop always reaches
Stopped, (b) StartAdvertising from Connected reaches Advertising (so
Connected does transition directly to Advertising), and (c) the transport
connect and disconnect events are handled unconditionally: a connect event
sets Connected from any state including Stopped, and a disconnect event sets
Idle from any state including Stopped and Advertising. -/
theorem c3_invalid_ops_no_op_with_exceptions :
    (∀ (s : HIDState) (op : DevOp),
        validOp s.device_state op = false →
        ¬ (s.device_state = .connected ∧ op = .opStartAdvertising) →
        (∀ h, ¬ (s.device_state = .stopped ∧ op = .opConnect h)) →
        (∀ h, ¬ ((s.device_state = .stopped ∨ s.device_state = .advertising) ∧
                   op = .opDisconnect h)) →
        (hid_step s op).device_state = s.device_state) ∧
    (∀ s : HIDState, (hid_step s .opStop).device_state = .stopped) ∧
    (∀ s : HIDState, s.device_state = .connected →
        (hid_step s .opStartAdvertising).device_state = .advertising) ∧
    (∀ (s : HIDState) (h : Nat), (hid_step s (.opConnect h)).device_state = .connected) ∧
    (∀ (s : HIDState) (h : Nat), (hid_step s (.opDisconnect h)).device_state = .idle) := by
  refine ⟨?_, ?_, ?_, ?_, ?_⟩
  · intro s op h1 h2 h3 h4
    cases op <;> cases hds : s.device_state <;>
      simp_all [hid_step, hid_start, hid_start_advertising, hid_stop_advertising,
        hid_stop, central_connect, central_disconnect, validOp]
  · intro s
    cases hds : s.device_state <;>
      simp_all [hid_step, hid_stop]
  · intro s hds
    simp [hid_step, hid_start_advertising, hds]
  · intro s h
    simp [hid_step, central_connect]
  · intro s h
    simp [hid_step, central_disconnect]

/-- Claim C3 witness: the amended no-op clause applied to a concrete invalid
pair, StartAdvertising issued in the Stopped state. -/
theorem c3_invalid_ops_no_op_with_exceptions_witness :
    (hid_step initHIDState DevOp.opStartAdvertising).device_state
      = initHIDState.device_state :=
  c3_invalid_ops_no_op_with_exceptions.1 initHIDState DevOp.opStartAdvertising
    (by decide)
    (fun hc => by exact absurd hc.1 (by decide))
    (fun h hc => DevOp.noConfusion hc.2)
    (fun h hc => DevOp.noConfusion hc.2)

/-- A concrete advertising device state for claim C4: the Advertiser
advertising flag has its initial (and only ever) value False. -/
def c4State : HIDState := { initHIDState with device_state := .advertising }

/-- Claim C4: Stop from Advertising reaches Stopped and clears the
connection handle, as the claim says, BUT the transport is never instructed
to stop advertising: Advertiser.stop_advertising is guarded by the
advertising flag, which Advertiser.__init__ initializes to False and which
no code ever sets to True (Advertiser.start_advertising does not assign it),
so no gap_advertise(0) command is ever issued.  The last conjunct records
the root cause: start_advertising leaves the flag unchanged. -/
theorem c4_stop_reaches_stopped_but_never_halts_advertising (s : HIDState)
    (hst : s.device_state = .advertising)
    (hadv : s.adv_advertising = false)
    (hconn : s.conn_handle = none) :
    (hid_stop s).1.device_state = .stopped ∧
    (hid_stop s).1.conn_handle = none ∧
    (hid_stop s).2 = [BLEAction.active false] ∧
    BLEAction.gapAdvertise 0 ∉ (hid_stop s).2 ∧
    (∀ t : HIDState, (hid_start_advertising t).1.adv_advertising = t.adv_advertising) := by
  refine ⟨?_, ?_, ?_, ?_, ?_⟩
  · simp [hid_stop, hst]
  · simp [hid_stop, hst]
  · simp [hid_stop, hst, hadv, hconn, advertiser_stop_advertising]
  · simp [hid_stop, hst, hadv, hconn, advertiser_stop_advertising]
  · intro t
    unfold hid_start_advertising
    split <;> rfl

/-- Claim C4 witness: the theorem applied at the concrete advertising
state. -/
theorem c4_stop_reaches_stopped_but_never_halts_advertising_witness :
    (hid_stop c4State).1.device_state = .stopped ∧
    (hid_stop c4State).1.conn_handle = none ∧
    (hid_stop c4State).2 = [BLEAction.active false] ∧
    BLEAction.gapAdvertise 0 ∉ (hid_stop c4State).2 ∧
    (∀ t : HIDState, (hid_start_advertising t).1.adv_advertising = t.adv_advertising) :=
  c4_stop_reaches_stopped_but_never_halts_advertising c4State rfl rfl rfl

/-- Claim C10: a central-disconnect event clears the connection handle and
the encrypted/authenticated/bonded flags but leaves key_size unchanged; a
subsequent connect event also leaves key_size unchanged, so the value
consulted by the key-size check of a later read request is still the one
negotiated before the disconnect, until an encryption-update event
overwrites it. -/
theorem c10_disconnect_clears_flags_keeps_key_size (s : HIDState) (h h2 : Nat)
    (enc auth bnd : Bool) (ks : Nat) :
    (central_disconnect s h).conn_handle = none ∧
    (central_disconnect s h).device_state = .idle ∧
    (central_disconnect s h).encrypted = false ∧
    (central_disconnect s h).authenticated = false ∧
    (central_disconnect s h).bonded = false ∧
    (central_disconnect s h).key_size = s.key_size ∧
    (central_connect (central_disconnect s h) h2).key_size = s.key_size ∧
    (encryption_update (central_connect (central_disconnect s h) h2)
        enc auth bnd ks).key_size = ks := by
  simp [central_disconnect, central_connect, encryption_update]

/-! ### Claims about the report codecs -/

/-- Claim C7: the mouse state with only button3 pressed.  The initial-value
encoder of Mouse.save_service_characteristics packs button3 on bit 2
(first byte 4), as the claim and the HID report descriptor say, but
Mouse.notify_hid_report packs the first byte as button1 + button2*2 +
button3, putting button3 on bit 0 (first byte 1): the two encoders disagree
on the same state, so the report is not one pure function of the state. -/
theorem c7_mouse_notify_misencodes_button3 :
    mouse_report_initial { x := 0, y := 0, w := 0, button1 := 0, button2 := 0, button3 := 1 }
      = [4, 0, 0, 0] ∧
    mouse_report_notify { x := 0, y := 0, w := 0, button1 := 0, button2 := 0, button3 := 1 }
      = [1, 0, 0, 0] ∧
    mouse_report_initial { x := 0, y := 0, w := 0, button1 := 0, button2 := 0, button3 := 1 }
      ≠ mouse_report_notify { x := 0, y := 0, w := 0, button1 := 0, button2 := 0, button3 := 1 } := by
  decide

/-- Claim C9: the joystick and mouse axis and wheel setters store the
saturating clamp of the input to [-127,127]: inputs above 127 store 127,
inputs below -127 store -127, in-range inputs are stored unchanged; hence
the encoded report of a state set from 200 (resp. -200) equals the encoded
report of the state set from 127 (resp. -127), for both devices. -/
theorem c9_setters_clamp_saturating :
    (∀ (s : JoyState) (x y : Int), 127 < x → (joystick_set_axes s x y).x = 127) ∧
    (∀ (s : JoyState) (x y : Int), x < -127 → (joystick_set_axes s x y).x = -127) ∧
    (∀ (s : JoyState) (x y : Int), -127 ≤ x → x ≤ 127 → (joystick_set_axes s x y).x = x) ∧
    (∀ (s : JoyState) (x y : Int), 127 < y → (joystick_set_axes s x y).y = 127) ∧
    (∀ (s : JoyState) (x y : Int), y < -127 → (joystick_set_axes s x y).y = -127) ∧
    (∀ (s : JoyState) (x y : Int), -127 ≤ y → y ≤ 127 → (joystick_set_axes s x y).y = y) ∧
    (∀ (s : MouseState) (x y : Int), 127 < x → (mouse_set_axes s x y).x = 127) ∧
    (∀ (s : MouseState) (x y : Int), x < -127 → (mouse_set_axes s x y).x = -127) ∧
    (∀ (s : MouseState) (x y : Int), -127 ≤ x → x ≤ 127 → (mouse_set_axes s x y).x = x) ∧
    (∀ (s : MouseState) (w : Int), 127 < w → (mouse_set_wheel s w).w = 127) ∧
    (∀ (s : MouseState) (w : Int), w < -127 → (mouse_set_wheel s w).w = -127) ∧
    (∀ (s : MouseState) (w : Int), -127 ≤ w → w ≤ 127 → (mouse_set_wheel s w).w = w) ∧
    (∀ s : JoyState,
        joystick_report (joystick_set_axes s 200 (-200))
          = joystick_report (joystick_set_axes s 127 (-127))) ∧
    (∀ s : MouseState,
        mouse_report_notify (mouse_set_wheel (mouse_set_axes s 200 (-200)) 200)
          = mouse_report_notify (mouse_set_wheel (mouse_set_axes s 127 (-127)) 127)) := by
  refine ⟨?_, ?_, ?_, ?_, ?_, ?_, ?_, ?_, ?_, ?_, ?_, ?_, ?_, ?_⟩ <;>
    intro s
  all_goals first
    | (intro x y hx
       simp only [joystick_set_axes, mouse_set_axes]
       split <;> omega)
    | (intro x y hx hy
       simp only [joystick_set_axes, mouse_set_axes]
       split <;> omega)
    | (intro w hw
       simp only [mouse_set_wheel]
       split <;> omega)
    | (intro w hw1 hw2
       simp only [mouse_set_wheel]
       split <;> omega)
    | simp [joystick_set_axes, mouse_set_axes, mouse_set_wheel,
        joystick_report, mouse_report_notify]

/-- The all-zero joystick state, as initialized by Joystick.__init__. -/
def initJoyState : JoyState := { x := 0, y := 0, button1 := 0, button2 := 0, button3 := 0, button4 := 0, button5 := 0, button6 := 0, button7 := 0, button8 := 0 }

/-- The all-zero mouse state, as initialized by Mouse.__init__. -/
def initMouseState : MouseState := { x := 0, y := 0, w := 0, button1 := 0, button2 := 0, button3 := 0 }

/-- Claim C9 witness: the clamp properties applied at concrete inputs and
the report equality at a concrete state. -/
theorem c9_setters_clamp_saturating_witness :
    (joystick_set_axes initJoyState 200 0).x = 127 ∧
    (mouse_set_wheel initMouseState (-200)).w = -127 ∧
    joystick_report (joystick_set_axes initJoyState 200 (-200))
      = joystick_report (joystick_set_axes initJoyState 127 (-127)) :=
  ⟨c9_setters_clamp_saturating.1 _ 200 0 (by decide),
   (c9_setters_clamp_saturating.2.2.2.2.2.2.2.2.2.2.1) _ (-200) (by decide),
   (c9_setters_clamp_saturating.2.2.2.2.2.2.2.2.2.2.2.2.1) _⟩

/-! ### Secrets store (hid_keystores.py KeyStore and
hid_services.py load_secrets/save_secrets) -/

/-- The base64 alphabet: sextet value to ASCII code
(binascii.b2a_base64). -/
def encChar (n : Nat) : Nat :=
  if n < 26 then 65 + n
  else if n < 52 then 97 + (n - 26)
  else if n < 62 then 48 + (n - 52)
  else if n = 62 then 43
  else 47

/-- The base64 alphabet inverse: ASCII code to sextet value
(binascii.a2b_base64). -/
def decChar (c : Nat) : Nat :=
  if 65 ≤ c ∧ c ≤ 90 then c - 65
  else if 97 ≤ c ∧ c ≤ 122 then 26 + (c - 97)
  else if 48 ≤ c ∧ c ≤ 57 then 52 + (c - 48)
  else if c = 43 then 62
  else 63

/-- binascii.b2a_base64(data, newline=False): standard base64 encoding of a
byte string, three bytes to four characters, with = (ASCII 61) padding. -/
def b2a_base64 : List Nat → List Nat
  | [] => []
  | [a] => [encChar (a / 4), encChar (a % 4 * 16), 61, 61]
  | [a, b] => [encChar (a / 4), encChar (a % 4 * 16 + b / 16), encChar (b % 16 * 4), 61]
  | a :: b :: c :: rest =>
      encChar (a / 4) :: encChar (a % 4 * 16 + b / 16) :: encChar (b % 16 * 4 + c / 64) ::
        encChar (c % 64) :: b2a_base64 rest

/-- binascii.a2b_base64: base64 decoding, four characters to three bytes,
honouring = (ASCII 61) padding. -/
def a2b_base64 : List Nat → List Nat
  | c1 :: c2 :: c3 :: c4 :: rest =>
      if c3 = 61 then [decChar c1 * 4 + decChar c2 / 16]
      else if c4 = 61 then
        [decChar c1 * 4 + decChar c2 / 16, decChar c2 % 16 * 16 + decChar c3 / 4]
      else
        (decChar c1 * 4 + decChar c2 / 16) :: (decChar c2 % 16 * 16 + decChar c3 / 4) ::
          (decChar c3 % 4 * 64 + decChar c4) :: a2b_base64 rest
  | _ => []

theorem decChar_encChar : ∀ n, n < 64 → decChar (encChar n) = n := by decide

theorem encChar_ne_pad : ∀ n, n < 64 → encChar n ≠ 61 := by decide

/-- Decoding inverts encoding on every byte string. -/
theorem a2b_b2a_base64 : ∀ bs : List Nat, (∀ b ∈ bs, b < 256) →
    a2b_base64 (b2a_base64 bs) = bs
  | [], _ => rfl
  | [a], h => by
      have ha : a < 256 := h a (by simp)
      have h1 := decChar_encChar (a / 4) (by omega)
      have h2 := decChar_encChar (a % 4 * 16) (by omega)
      simp [b2a_base64, a2b_base64, h1, h2]
      omega
  | [a, b], h => by
      have ha : a < 256 := h a (by simp)
      have hb : b < 256 := h b (by simp)
      have h1 := decChar_encChar (a / 4) (by omega)
      have h2 := decChar_encChar (a % 4 * 16 + b / 16) (by omega)
      have h3 := decChar_encChar (b % 16 * 4) (by omega)
      have n3 := encChar_ne_pad (b % 16 * 4) (by omega)
      simp [b2a_base64, a2b_base64, h1, h2, h3, n3]
      omega
  | a :: b :: c :: rest, h => by
      have ha : a < 256 := h a (by simp)
      have hb : b < 256 := h b (by simp)
      have hc : c < 256 := h c (by simp)
      have ih := a2b_b2a_base64 rest (fun x hx => h x (by simp [hx]))
      have h1 := decChar_encChar (a / 4) (by omega)
      have h2 := decChar_encChar (a % 4 * 16 + b / 16) (by omega)
      have h3 := decChar_encChar (b % 16 * 4 + c / 64) (by omega)
      have h4 := decChar_encChar (c % 64) (by omega)
      have n3 := encChar_ne_pad (b % 16 * 4 + c / 64) (by omega)
      have n4 := encChar_ne_pad (c % 64) (by omega)
      simp [b2a_base64, a2b_base64, h1, h2, h3, h4, n3, n4, ih]
      refine ⟨by omega, by omega, by omega⟩

/-- The secrets dict: composite key (secret type, key bytes) to value bytes,
in insertion order (KeyStore.__init__ / HumanInterfaceDevice.__init__). -/
abbrev SecretsMap := List ((Nat × List Nat) × List Nat)

/-- KeyStore.get_json_secrets (hid_keystores.py lines 39-44), identical to
the list comprehension in HumanInterfaceDevice.save_secrets (hid_services.py
lines 480-483): each (type, key, value) entry with key and value base64
encoded.  The json.dump/json.load layer is modelled as the identity on this
entry list: the base64 output is plain ASCII, which the JSON text encoding
carries losslessly. -/
def get_json_secrets (st : SecretsMap) : List (Nat × List Nat × List Nat) :=
  st.map (fun e => (e.1.1, b2a_base64 e.1.2, b2a_base64 e.2))

/-- KeyStore.add_json_secrets (hid_keystores.py lines 46-48), identical to
the loop in HumanInterfaceDevice.load_secrets (hid_services.py lines
470-472): each entry is base64 decoded and assigned into the secrets
dict. -/
def add_json_secrets (st : SecretsMap) (entries : List (Nat × List Nat × List Nat)) :
    SecretsMap :=
  entries.foldl (fun acc e => dictSet acc (e.1, a2b_base64 e.2.1) (a2b_base64 e.2.2)) st

/-- HumanInterfaceDevice.save_secrets (lines 477-486): the entry list written
to the keys.json file. -/
def save_secrets (st : SecretsMap) : List (Nat × List Nat × List Nat) :=
  get_json_secrets st

/-- HumanInterfaceDevice.load_secrets (lines 467-474): decode the file entry
list into the (initially empty) secrets dict. -/
def load_secrets (entries : List (Nat × List Nat × List Nat)) : SecretsMap :=
  add_json_secrets [] entries

/-- dictSet on a key absent from the dict appends the new entry. -/
theorem dictSet_absent {α β : Type} [DecidableEq α] :
    ∀ (l : List (α × β)) (k : α) (v : β), (∀ e ∈ l, e.1 ≠ k) →
      dictSet l k v = l ++ [(k, v)] := by
  intro l k v habs
  induction l with
  | nil => simp [dictSet]
  | cons e rest ih =>
      obtain ⟨k0, v0⟩ := e
      have hk0 : k0 ≠ k := habs (k0, v0) (by simp)
      simp only [dictSet, if_neg hk0, List.cons_append, List.cons.injEq, true_and]
      exact ih (fun e he => habs e (by simp [he]))

/-- Adding the exported entries of a secrets map S with pairwise distinct
keys onto a store disjoint from S appends S unchanged. -/
theorem add_json_get_json : ∀ (S st : SecretsMap),
    (S.map (fun e => e.1)).Nodup →
    (∀ e ∈ S, (∀ b ∈ e.1.2, b < 256) ∧ (∀ b ∈ e.2, b < 256)) →
    (∀ e ∈ S, ∀ e0 ∈ st, e.1 ≠ e0.1) →
    add_json_secrets st (get_json_secrets S) = st ++ S := by
  intro S st
  induction S generalizing st with
  | nil => intro _ _ _; simp [add_json_secrets, get_json_secrets]
  | cons e rest ih =>
      intro hnd hb hdisj
      obtain ⟨⟨t, k⟩, v⟩ := e
      have hkb : ∀ b ∈ k, b < 256 := (hb ((t, k), v) (by simp)).1
      have hvb : ∀ b ∈ v, b < 256 := (hb ((t, k), v) (by simp)).2
      have hset : dictSet st (t, k) v = st ++ [((t, k), v)] :=
        dictSet_absent st (t, k) v
          (fun e0 he0 => (hdisj ((t, k), v) (by simp) e0 he0).symm)
      simp only [get_json_secrets, List.map_cons, add_json_secrets, List.foldl_cons,
        a2b_b2a_base64 k hkb, a2b_b2a_base64 v hvb]
      rw [show dictSet st (t, k) v = st ++ [((t, k), v)] from hset]
      have := ih (st ++ [((t, k), v)])
        (by simpa using (List.nodup_cons.mp (by simpa using hnd)).2)
        (fun e0 he0 => hb e0 (by simp [he0]))
        ?_
      · simpa [add_json_secrets, get_json_secrets, List.append_assoc] using this
      · intro e0 he0 e1 he1
        rcases List.mem_append.mp he1 with h1 | h1
        · exact hdisj e0 (by simp [he0]) e1 h1
        · have : e1 = ((t, k), v) := by simpa using h1
          subst this
          have hk : ((t, k) : Nat × List Nat) ∉ rest.map (fun e => e.1) :=
            (List.nodup_cons.mp (by simpa using hnd)).1
          intro hcontra
          have hmem : e0.1 ∈ rest.map (fun e => e.1) :=
            List.mem_map_of_mem (fun e => e.1) he0
          rw [show e0.1 = (t, k) from hcontra] at hmem
          exact hk hmem

/-- Claim C8: for every secrets map S with pairwise distinct (type, key)
composite keys whose key and value byte strings are arbitrary bytes
(zero bytes and non-ASCII bytes included), importing the exported
text-encoded form reproduces S exactly: add_json_secrets of
get_json_secrets is the identity, and the save_secrets/load_secrets pair
restores the in-memory secrets map unchanged. -/
theorem c8_secrets_roundtrip (S : SecretsMap)
    (hnd : (S.map (fun e => e.1)).Nodup)
    (hb : ∀ e ∈ S, (∀ b ∈ e.1.2, b < 256) ∧ (∀ b ∈ e.2, b < 256)) :
    add_json_secrets [] (get_json_secrets S) = S ∧
    load_secrets (save_secrets S) = S := by
  have h := add_json_get_json S [] hnd hb (by simp)
  simp only [List.nil_append] at h
  exact ⟨h, h⟩

/-- Claim C8 witness: the round trip at a concrete secrets map containing a
zero byte and non-ASCII bytes in both keys and values. -/
theorem c8_secrets_roundtrip_witness :
    add_json_secrets [] (get_json_secrets [((1, [0, 255]), [200, 0, 3]), ((2, [7]), [0])])
      = [((1, [0, 255]), [200, 0, 3]), ((2, [7]), [0])] ∧
    load_secrets (save_secrets [((1, [0, 255]), [200, 0, 3]), ((2, [7]), [0])])
      = [((1, [0, 255]), [200, 0, 3]), ((2, [7]), [0])] :=
  c8_secrets_roundtrip [((1, [0, 255]), [200, 0, 3]), ((2, [7]), [0])]
    (by decide) (by decide)

/-! ### Advertising codec (class Advertiser) -/

/-- A bluetooth.UUID value: a 16-bit UUID built from an integer, a 32-bit
UUID (4 bytes, handled by the encoder branch for byte width 4), or a 128-bit
UUID built from a byte string. -/
inductive BTUUID where
  | u16 (n : Nat)
  | u32 (n : Nat)
  | u128 (bs : List Nat)
deriving DecidableEq, Repr

/-- bytes(uuid): the little-endian byte representation of a UUID. -/
def uuidBytes : BTUUID → List Nat
  | .u16 n => [n % 256, n / 256 % 256]
  | .u32 n => [n % 256, n / 256 % 256, n / 65536 % 256, n / 16777216 % 256]
  | .u128 bs => bs

/-- One advertising TLV record as a (type, value) pair. -/
abbrev AdvRecord := Nat × List Nat

/-- The _append helper of Advertiser.advertising_payload (lines 108-110):
each record is encoded as the length byte (value length + 1), the type byte,
then the value bytes. -/
def encodeRecords : List AdvRecord → List Nat
  | [] => []
  | r :: rest => (r.2.length + 1) :: r.1 :: (r.2 ++ encodeRecords rest)

/-- Advertising record types (hid_services.py lines 38-46). -/
def ADV_TYPE_FLAGS : Nat := 0x01
def ADV_TYPE_NAME : Nat := 0x09
def ADV_TYPE_UUID16_COMPLETE : Nat := 0x03
def ADV_TYPE_UUID32_COMPLETE : Nat := 0x05
def ADV_TYPE_UUID128_COMPLETE : Nat := 0x07
def ADV_TYPE_APPEARANCE : Nat := 0x19

/-- The service records emitted by the encoder loop (lines 120-128): byte
width 2, 4 or 16 selects the record type; any other width is silently
skipped. -/
def advRecordsOfUUID (u : BTUUID) : List AdvRecord :=
  let b := uuidBytes u
  if b.length = 2 then [(ADV_TYPE_UUID16_COMPLETE, b)]
  else if b.length = 4 then [(ADV_TYPE_UUID32_COMPLETE, b)]
  else if b.length = 16 then [(ADV_TYPE_UUID128_COMPLETE, b)]
  else []

/-- The concatenated service records for a UUID list. -/
def uuidRecords : List BTUUID → List AdvRecord
  | [] => []
  | u :: rest => advRecordsOfUUID u ++ uuidRecords rest

/-- struct.pack of a little-endian signed 16-bit value. -/
def packh (a : Int) : List Nat :=
  [((a % 65536).toNat) % 256, ((a % 65536).toNat) / 256]

/-- struct.unpack of a little-endian signed 16-bit value; struct.error
(modelled as none) unless the field is exactly two bytes. -/
def unpackh : List Nat → Option Int
  | [b0, b1] =>
      some (if 32768 ≤ b0 + 256 * b1 then ((b0 + 256 * b1 : Nat) : Int) - 65536
            else ((b0 + 256 * b1 : Nat) : Int))
  | _ => none

/-- Advertiser.advertising_payload (lines 105-134).  The name is the UTF-8
byte string of the name argument.  The payload is the flags record, then the
name record if the name is nonempty, then one record per service UUID of
byte width 2/4/16, then the appearance record if the appearance is nonzero.
struct.pack raises (modelled as none) when a record value is longer than 254
bytes (its length byte would exceed 255) or when the appearance does not fit
a signed 16-bit value. -/
def advertising_payload (limited_disc br_edr : Bool) (name : List Nat)
    (services : List BTUUID) (appearance : Int) : Option (List Nat) :=
  if name ≠ [] ∧ 254 < name.length then none
  else if appearance ≠ 0 ∧ (appearance < -32768 ∨ 32767 < appearance) then none
  else some (encodeRecords
    ([(ADV_TYPE_FLAGS, [(if limited_disc then 1 else 2) + (if br_edr then 24 else 4)])]
      ++ (if name = [] then [] else [(ADV_TYPE_NAME, name)])
      ++ uuidRecords services
      ++ (if appearance = 0 then [] else [(ADV_TYPE_APPEARANCE, packh appearance)])))

/-- The loop body of Advertiser.decode_field (lines 137-144), with an
explicit fuel counter standing for the loop iteration bound: the source
advances the index by 1 + payload i each iteration, so payload.length fuel
suffices.  A length byte of 0 makes the source loop forever; the model
returns [] there (the encoder never emits a zero length byte). -/
def decode_field_go (fuel : Nat) (payload : List Nat) (adv_type : Nat) : List (List Nat) :=
  match fuel, payload with
  | fuel + 1, len :: t :: rest =>
      if len = 0 then []
      else (if t = adv_type then [rest.take (len - 1)] else [])
             ++ decode_field_go fuel ((t :: rest).drop len) adv_type
  | _, _ => []

/-- Advertiser.decode_field: collect the values of every record of the given
type. -/
def decode_field (payload : List Nat) (adv_type : Nat) : List (List Nat) :=
  decode_field_go payload.length payload adv_type

/-- Advertiser.decode_name (lines 147-149): the first name record, or the
empty byte string (names are modelled as their UTF-8 bytes). -/
def decode_name (payload : List Nat) : List Nat :=
  match decode_field payload ADV_TYPE_NAME with
  | [] => []
  | n :: _ => n

/-- The 16-bit loop of Advertiser.decode_services (lines 154-155):
struct.unpack of a signed short ("<h") raises unless the field is exactly
two bytes, and bluetooth.UUID of a negative integer raises; both are
modelled as none. -/
def parse_uuid16_fields : List (List Nat) → Option (List BTUUID)
  | [] => some []
  | u :: rest =>
      match unpackh u with
      | none => none
      | some v =>
          if v < 0 then none
          else match parse_uuid16_fields rest with
            | none => none
            | some l => some (BTUUID.u16 v.toNat :: l)

/-- The 128-bit loop of Advertiser.decode_services (lines 158-159):
bluetooth.UUID of a byte string raises unless it is 16 bytes long. -/
def parse_uuid128_fields : List (List Nat) → Option (List BTUUID)
  | [] => some []
  | u :: rest =>
      if u.length = 16 then
        match parse_uuid128_fields rest with
        | none => none
        | some l => some (BTUUID.u128 u :: l)
      else none

/-- Advertiser.decode_services (lines 152-160): collect 16-bit UUIDs, then
32-bit UUIDs, then 128-bit UUIDs.  The 32-bit loop (lines 156-157) unpacks
each field with the 8-byte double format "<d", which raises struct.error on
the 4-byte fields the encoder emits (and bluetooth.UUID of a float raises
otherwise), so any UUID32_COMPLETE record makes decoding fail, modelled as
none. -/
def decode_services (payload : List Nat) : Option (List BTUUID) :=
  match parse_uuid16_fields (decode_field payload ADV_TYPE_UUID16_COMPLETE) with
  | none => none
  | some l16 =>
      if decode_field payload ADV_TYPE_UUID32_COMPLETE ≠ [] then none
      else match parse_uuid128_fields (decode_field payload ADV_TYPE_UUID128_COMPLETE) with
        | none => none
        | some l128 => some (l16 ++ l128)

/-- Modelled from the spec: the source has decode_name and decode_services
but no appearance decoder, while the spec says decode extracts the logical
view (name, UUID list, appearance); this composes the source decode_field
with the inverse of the source pack format "<h". -/
def decode_appearance (payload : List Nat) : Option Int :=
  match decode_field payload ADV_TYPE_APPEARANCE with
  | [] => none
  | b :: _ => unpackh b

/-- Scanning an encoded record list collects exactly the values of the
records of the requested type, given enough fuel. -/
theorem decode_field_go_encodeRecords :
    ∀ (recs : List AdvRecord) (fuel t : Nat),
      (encodeRecords recs).length ≤ fuel →
      decode_field_go fuel (encodeRecords recs) t
        = (recs.filter (fun r => r.1 = t)).map (fun r => r.2) := by
  intro recs
  induction recs with
  | nil =>
      intro fuel t _
      cases fuel <;> simp [encodeRecords, decode_field_go]
  | cons r rest ih =>
      intro fuel t hf
      obtain ⟨t0, v⟩ := r
      simp only [encodeRecords, List.length_cons, List.length_append] at hf
      match fuel with
      | 0 => omega
      | f + 1 =>
          have hrest : (encodeRecords rest).length ≤ f := by omega
          simp only [encodeRecords, decode_field_go, Nat.succ_ne_zero, if_neg,
            Nat.add_sub_cancel]
          rw [if_neg not_false]
          rw [show (v ++ encodeRecords rest).take v.length = v from
                by simpa using List.take_left v (encodeRecords rest)]
          rw [List.drop_succ_cons,
              show (v ++ encodeRecords rest).drop v.length = encodeRecords rest from
                by simpa using List.drop_left v (encodeRecords rest)]
          rw [ih f t hrest]
          by_cases ht : t0 = t <;> simp [List.filter_cons, ht]

/-- decode_field on an encoded record list. -/
theorem decode_field_encodeRecords (recs : List AdvRecord) (t : Nat) :
    decode_field (encodeRecords recs) t
      = (recs.filter (fun r => r.1 = t)).map (fun r => r.2) :=
  decode_field_go_encodeRecords recs (encodeRecords recs).length t le_rfl

/-- The service records of a list of 16-bit UUIDs: one UUID16_COMPLETE
record per UUID. -/
theorem uuidRecords_u16 : ∀ services : List BTUUID,
    (∀ u ∈ services, ∃ n, u = BTUUID.u16 n) →
    uuidRecords services
      = services.map (fun u => (ADV_TYPE_UUID16_COMPLETE, uuidBytes u)) := by
  intro services
  induction services with
  | nil => intro _; rfl
  | cons u rest ih =>
      intro hs
      obtain ⟨n, rfl⟩ := hs u (by simp)
      simp only [uuidRecords, advRecordsOfUUID, uuidBytes, List.length_cons,
        List.length_nil, List.map_cons, if_true]
      rw [ih (fun u hu => hs u (by simp [hu]))]
      simp [uuidBytes]

/-- Filtering the 16-bit service records by a record type keeps all of them
or none of them. -/
theorem filter_uuid16_records (services : List BTUUID) (t : Nat) :
    (services.map (fun u => (ADV_TYPE_UUID16_COMPLETE, uuidBytes u))).filter
      (fun r => r.1 = t)
      = if ADV_TYPE_UUID16_COMPLETE = t then
          services.map (fun u => (ADV_TYPE_UUID16_COMPLETE, uuidBytes u)) else [] := by
  induction services with
  | nil => simp
  | cons u rest ih =>
      by_cases ht : ADV_TYPE_UUID16_COMPLETE = t <;> simp [List.filter_cons, ht, ih]

/-- Filtering uniform records by their own type keeps everything; mapping
back to the values recovers the byte fields. -/
theorem filter_self_records (services : List BTUUID) (t : Nat) :
    ((services.map (fun u => (t, uuidBytes u))).filter (fun r => r.1 = t)).map
      (fun r => r.2) = services.map uuidBytes := by
  induction services with
  | nil => rfl
  | cons u rest ih => simp [List.filter_cons, ih]

/-- The record values of each type collected from a payload of the shape the
encoder produces for 16-bit services: flags, optional name, 16-bit service
records, appearance. -/
theorem filter_payload_records (flags name app : List Nat) (services : List BTUUID)
    (t : Nat) (hsvc16 : ∀ u ∈ services, ∃ n, u = BTUUID.u16 n) :
    (([(ADV_TYPE_FLAGS, flags)]
        ++ (if name = [] then [] else [(ADV_TYPE_NAME, name)])
        ++ uuidRecords services
        ++ [(ADV_TYPE_APPEARANCE, app)]).filter (fun r => r.1 = t)).map (fun r => r.2)
      = (if ADV_TYPE_FLAGS = t then [flags] else [])
          ++ (if name = [] then [] else if ADV_TYPE_NAME = t then [name] else [])
          ++ (if ADV_TYPE_UUID16_COMPLETE = t then services.map uuidBytes else [])
          ++ (if ADV_TYPE_APPEARANCE = t then [app] else []) := by
  rw [uuidRecords_u16 services hsvc16]
  by_cases h1 : ADV_TYPE_FLAGS = t <;>
    by_cases h2 : name = [] <;>
      by_cases h3 : ADV_TYPE_NAME = t <;>
        by_cases h4 : ADV_TYPE_UUID16_COMPLETE = t <;>
          by_cases h5 : ADV_TYPE_APPEARANCE = t <;>
            simp [List.filter_append, List.filter_cons, filter_uuid16_records,
              filter_self_records, h1, h2, h3, h4, h5, List.map_map, Function.comp]

/-- Parsing the byte fields of 16-bit UUIDs below 0x8000 recovers the
UUIDs. -/
theorem parse_uuid16_map : ∀ services : List BTUUID,
    (∀ u ∈ services, ∃ n, u = BTUUID.u16 n ∧ n < 32768) →
    parse_uuid16_fields (services.map uuidBytes) = some services := by
  intro services
  induction services with
  | nil => intro _; rfl
  | cons u rest ih =>
      intro hs
      obtain ⟨n, rfl, hn⟩ := hs u (by simp)
      have heq : n % 256 + 256 * (n / 256 % 256) = n := by omega
      simp only [List.map_cons, uuidBytes, parse_uuid16_fields, unpackh, heq]
      rw [if_neg (by omega), ih (fun u hu => hs u (by simp [hu]))]
      rw [if_neg (by omega)]
      simp

/-- unpack inverts pack on nonnegative signed 16-bit values. -/
theorem unpackh_packh (a : Int) (h0 : 0 ≤ a) (h1 : a ≤ 32767) :
    unpackh (packh a) = some a := by
  have ha : a % 65536 = a := by omega
  simp only [packh, unpackh, ha]
  have h2 : a.toNat % 256 + 256 * (a.toNat / 256) = a.toNat := by omega
  rw [h2, if_neg (by omega)]
  congr 1
  omega

/-- Claim C6 counterexample.  Two failures of the universal round trip:
(a) for the 16-bit UUID 0x8001 the decoder unpacks the field with the signed
format, obtains a negative value and bluetooth.UUID raises on it, so
decode_services fails instead of reproducing [0x8001]; (b) for a service
UUID of byte width 4 the encoder emits a UUID32_COMPLETE record, but the
decoder unpacks such fields with the 8-byte double format, so decoding fails
as well.  Hence the round trip does not hold for every list of UUIDs of byte
widths 2, 4 or 16. -/
theorem c6_counterexample :
    (advertising_payload false false [65] [BTUUID.u16 0x8001] 963
      = some [2, 1, 6, 2, 9, 65, 3, 3, 1, 128, 3, 25, 195, 3] ∧
     decode_services [2, 1, 6, 2, 9, 65, 3, 3, 1, 128, 3, 25, 195, 3] = none ∧
     (none : Option (List BTUUID)) ≠ some [BTUUID.u16 0x8001]) ∧
    (advertising_payload false false [65] [BTUUID.u32 1] 963
      = some [2, 1, 6, 2, 9, 65, 5, 5, 1, 0, 0, 0, 3, 25, 195, 3] ∧
     decode_services [2, 1, 6, 2, 9, 65, 5, 5, 1, 0, 0, 0, 3, 25, 195, 3] = none ∧
     (none : Option (List BTUUID)) ≠ some [BTUUID.u32 1]) := by
  refine ⟨⟨by decide, by decide, by decide⟩, ⟨by decide, by decide, by decide⟩⟩

/-- Claim C6 (amended): the advertising round trip holds for every name of
at most 254 bytes, every list of 16-bit UUIDs with values below 0x8000, and
every appearance in [1, 0x7FFF]: decoding the encoded payload reproduces the
name, the UUID list and the appearance.  (Outside these bounds the round
trip fails: width-4 UUIDs and 16-bit UUIDs of value 0x8000 and above make
decode_services raise, and an appearance of 0x8000 and above makes the
encoder itself raise, since it packs the appearance as a signed short.)  In
particular the concrete Joystick instance round-trips. -/
theorem c6_adv_roundtrip_amended (ld be : Bool) (name : List Nat)
    (services : List BTUUID) (appearance : Int)
    (hname : name.length ≤ 254)
    (hsvc : ∀ u ∈ services, ∃ n, u = BTUUID.u16 n ∧ n < 32768)
    (happ0 : 1 ≤ appearance) (happ1 : appearance ≤ 32767) :
    ∃ p, advertising_payload ld be name services appearance = some p ∧
      decode_name p = name ∧
      decode_services p = some services ∧
      decode_appearance p = some appearance := by
  have hsvc16 : ∀ u ∈ services, ∃ n, u = BTUUID.u16 n :=
    fun u hu => (hsvc u hu).imp (fun n h => h.1)
  refine ⟨encodeRecords
      ([(ADV_TYPE_FLAGS, [(if ld then 1 else 2) + (if be then 24 else 4)])]
        ++ (if name = [] then [] else [(ADV_TYPE_NAME, name)])
        ++ uuidRecords services
        ++ [(ADV_TYPE_APPEARANCE, packh appearance)]),
    ?_, ?_, ?_, ?_⟩
  · unfold advertising_payload
    rw [if_neg (fun hc => by omega), if_neg (fun hc => by omega),
      if_neg (by omega : ¬ appearance = 0)]
  · unfold decode_name
    rw [decode_field_encodeRecords, filter_payload_records _ _ _ _ _ hsvc16]
    by_cases hn : name = [] <;>
      simp [hn, ADV_TYPE_FLAGS, ADV_TYPE_NAME, ADV_TYPE_UUID16_COMPLETE,
        ADV_TYPE_APPEARANCE]
  · unfold decode_services
    rw [decode_field_encodeRecords, decode_field_encodeRecords,
      decode_field_encodeRecords, filter_payload_records _ _ _ _ _ hsvc16,
      filter_payload_records _ _ _ _ _ hsvc16,
      filter_payload_records _ _ _ _ _ hsvc16]
    by_cases hn : name = [] <;>
      simp [hn, parse_uuid16_map services hsvc, parse_uuid128_fields,
        ADV_TYPE_FLAGS, ADV_TYPE_NAME, ADV_TYPE_UUID16_COMPLETE,
        ADV_TYPE_UUID32_COMPLETE, ADV_TYPE_UUID128_COMPLETE, ADV_TYPE_APPEARANCE]
  · unfold decode_appearance
    rw [decode_field_encodeRecords, filter_payload_records _ _ _ _ _ hsvc16]
    by_cases hn : name = [] <;>
      simp [hn, unpackh_packh appearance (by omega) happ1,
        ADV_TYPE_FLAGS, ADV_TYPE_NAME, ADV_TYPE_UUID16_COMPLETE,
        ADV_TYPE_APPEARANCE]

/-- Claim C6 witness: the amended round trip applied to the concrete
Joystick instance: name "Joystick" (UTF-8 bytes), services [0x1812],
appearance 963. -/
theorem c6_adv_roundtrip_amended_witness :
    ∃ p, advertising_payload false false [74, 111, 121, 115, 116, 105, 99, 107]
        [BTUUID.u16 0x1812] 963 = some p ∧
      decode_name p = [74, 111, 121, 115, 116, 105, 99, 107] ∧
      decode_services p = some [BTUUID.u16 0x1812] ∧
      decode_appearance p = some 963 :=
  c6_adv_roundtrip_amended false false [74, 111, 121, 115, 116, 105, 99, 107]
    [BTUUID.u16 0x1812] 963 (by decide)
    (by intro u hu; exact ⟨0x1812, List.mem_singleton.mp hu, by decide⟩)
    (by decide) (by decide)
